import Mathlib

/-!
Shallow embedding of the netidx core for specification checking.

Covered source:
* netidx-netproto/src/value.rs   (the `Value` sum type, `Typ`, arithmetic, `cast`)
* netidx/src/channel.rs          (framed channel: read task, write queue, set_ctx)
* netidx/src/resolver_server.rs  (write-client batch loop: Clear splitting)
* src/subscriber.rs              (subscribe failure reporting)

Machine integers are modelled as `Nat`/`Int` with explicit two's-complement
wrapping where Rust release-mode arithmetic wraps; operations that panic in
Rust in every build mode are modelled in `Except Panic _`.  Calls into
external crates (IEEE-754 float operations, chrono calendar arithmetic,
string parsing) are kept as parameters collected in `ExtFns`: every theorem
below holds for an arbitrary instantiation of those parameters, and closed
witnesses instantiate them with the concrete `trivExt`.
-/

namespace Netidx

/-- Chars is the zero-copy UTF-8 string type of netidx-core; its observable
content is a string. -/
abbrev Chars := String

/-- Model of chrono `DateTime<Utc>`: UNIX seconds (`timestamp()`) plus the
subsecond nanoseconds. -/
structure DtRep where
  secs : Int
  nanos : Nat
deriving DecidableEq, Repr

/-- Nanoseconds in one second. -/
def nanosPerSec : Nat := 1000000000

/-- Exclusive upper bound of std `Duration` in nanoseconds:
`u64::MAX` seconds plus `999_999_999` nanoseconds is `2^64 * 10^9 - 1`. -/
def durBound : Nat := 2 ^ 64 * nanosPerSec

/-- Two's-complement wrap of a `Nat` into `u32` range (`as u32` on unsigned). -/
def wrap32 (n : Nat) : Nat := n % 2 ^ 32

/-- Two's-complement wrap of a `Nat` into `u64` range. -/
def wrap64 (n : Nat) : Nat := n % 2 ^ 64

/-- Reinterpret an `Int` in `u32` range: Rust `as u32` on a signed value. -/
def wrapU32OfInt (x : Int) : Nat := (x % 2 ^ 32).toNat

/-- Reinterpret an `Int` in `u64` range: Rust `as u64` on a signed value. -/
def wrapU64OfInt (x : Int) : Nat := (x % 2 ^ 64).toNat

/-- Two's-complement wrap of an `Int` into `i32` range. -/
def wrapI32 (x : Int) : Int := (x + 2 ^ 31) % 2 ^ 32 - 2 ^ 31

/-- Two's-complement wrap of an `Int` into `i64` range. -/
def wrapI64 (x : Int) : Int := (x + 2 ^ 63) % 2 ^ 64 - 2 ^ 63

/-- Reinterpret a `Nat` (u32/u64 payload) as `i32` (`as i32`). -/
def wrapI32OfNat (n : Nat) : Int := wrapI32 (n : Int)

/-- Reinterpret a `Nat` as `i64` (`as i64`). -/
def wrapI64OfNat (n : Nat) : Int := wrapI64 (n : Int)

/-- The tagged value sum of netidx-netproto/src/value.rs.  Integer payloads
are `Nat`/`Int` (two's-complement wrapping is applied by the operations);
float payloads are opaque IEEE-754 bit patterns represented as `Nat`;
`DateTime` carries a `DtRep`; `Duration` carries total nanoseconds. -/
inductive Value where
  | U32 (v : Nat)
  | V32 (v : Nat)
  | I32 (v : Int)
  | Z32 (v : Int)
  | U64 (v : Nat)
  | V64 (v : Nat)
  | I64 (v : Int)
  | Z64 (v : Int)
  | F32 (bits : Nat)
  | F64 (bits : Nat)
  | DateTime (d : DtRep)
  | Duration (nanos : Nat)
  | String (s : Chars)
  | Bytes (b : List Nat)
  | True
  | False
  | Null
  | Ok
  | Error (s : Chars)
deriving DecidableEq, Repr

/-- The type-tag enumeration `Typ` of value.rs. -/
inductive Typ where
  | U32
  | V32
  | I32
  | Z32
  | U64
  | V64
  | I64
  | Z64
  | F32
  | F64
  | DateTime
  | Duration
  | Bool
  | String
  | Bytes
  | Result
deriving DecidableEq, Repr

/-- Typ::get from value.rs: the tag of a value; `Null` has none. -/
def Typ.get (v : Value) : Option Typ :=
  match v with
  | .U32 _ => some .U32
  | .V32 _ => some .V32
  | .I32 _ => some .I32
  | .Z32 _ => some .Z32
  | .U64 _ => some .U64
  | .V64 _ => some .V64
  | .I64 _ => some .I64
  | .Z64 _ => some .Z64
  | .F32 _ => some .F32
  | .F64 _ => some .F64
  | .DateTime _ => some .DateTime
  | .Duration _ => some .Duration
  | .String _ => some .String
  | .Bytes _ => some .Bytes
  | .True => some .Bool
  | .False => some .Bool
  | .Null => none
  | .Ok => some .Result
  | .Error _ => some .Result

/-- Approximation of the Rust derive(Debug) rendering of a `Value`, used only
inside the text of arithmetic error messages.  Numeric payloads render exactly
as Rust does; float, datetime, string and bytes payloads are rendered
schematically (no theorem below depends on the exact message text). -/
def debugFmt : Value → String
  | .U32 v => "U32(" ++ toString v ++ ")"
  | .V32 v => "V32(" ++ toString v ++ ")"
  | .I32 v => "I32(" ++ toString v ++ ")"
  | .Z32 v => "Z32(" ++ toString v ++ ")"
  | .U64 v => "U64(" ++ toString v ++ ")"
  | .V64 v => "V64(" ++ toString v ++ ")"
  | .I64 v => "I64(" ++ toString v ++ ")"
  | .Z64 v => "Z64(" ++ toString v ++ ")"
  | .F32 b => "F32(bits " ++ toString b ++ ")"
  | .F64 b => "F64(bits " ++ toString b ++ ")"
  | .DateTime d => "DateTime(" ++ toString d.secs ++ "." ++ toString d.nanos ++ ")"
  | .Duration n => "Duration(" ++ toString n ++ "ns)"
  | .String s => "String(" ++ s ++ ")"
  | .Bytes _ => "Bytes(..)"
  | .True => "True"
  | .False => "False"
  | .Null => "Null"
  | .Ok => "Ok"
  | .Error s => "Error(" ++ s ++ ")"

/-- Message of the catch-all arithmetic arms, e.g. `can't add l and r`. -/
def cantMsg (op : String) (conj : String) (l r : Value) : Chars :=
  "can\x27t " ++ op ++ " " ++ debugFmt l ++ " " ++ conj ++ " " ++ debugFmt r

/-- Display error of `chrono::Duration::from_std` on an out-of-range std
duration. -/
def fromStdErrMsg : Chars := "Source duration value is out of range for the target type"

/-- External-crate functions the embedding is parameterized by: IEEE-754
float arithmetic on bit patterns, chrono calendar arithmetic, and
`Typ::parse` (which goes through core `str::parse`, chrono and base64).
Fields returning `Option` use `none` for a panic of the underlying call.
Defaults are arbitrary; all theorems hold for every instantiation. -/
structure ExtFns where
  f32Add : Nat → Nat → Nat := fun _ _ => 0
  f32Sub : Nat → Nat → Nat := fun _ _ => 0
  f32Mul : Nat → Nat → Nat := fun _ _ => 0
  f32Div : Nat → Nat → Nat := fun _ _ => 0
  f64Add : Nat → Nat → Nat := fun _ _ => 0
  f64Sub : Nat → Nat → Nat := fun _ _ => 0
  f64Mul : Nat → Nat → Nat := fun _ _ => 0
  f64Div : Nat → Nat → Nat := fun _ _ => 0
  /-- Duration::mul_f32 in nanoseconds; `none` is the panic on NaN, negative
  or out-of-range results. -/
  durMulF32 : Nat → Nat → Option Nat := fun _ _ => none
  durMulF64 : Nat → Nat → Option Nat := fun _ _ => none
  /-- Duration::div_f32 in nanoseconds; `none` is the panic path. -/
  durDivF32 : Nat → Nat → Option Nat := fun _ _ => none
  durDivF64 : Nat → Nat → Option Nat := fun _ _ => none
  /-- chrono `DateTime<Utc> + chrono::Duration` (argument in std nanoseconds,
  already checked by from_std); `none` is the chrono overflow panic. -/
  dtPlusNanos : DtRep → Nat → Option DtRep := fun _ _ => none
  dtMinusNanos : DtRep → Nat → Option DtRep := fun _ _ => none
  /-- Typ::parse(s).ok(), used by cast on `String` sources. -/
  parse : Typ → Chars → Option Value := fun _ _ => none
  /-- chrono NaiveDateTime::from_timestamp_opt lifted to UTC. -/
  fromTimestampOpt : Int → Nat → Option DtRep := fun _ _ => none
  /-- classify() is Nan or Infinite. -/
  f32IsNanInf : Nat → Bool := fun _ => false
  f64IsNanInf : Nat → Bool := fun _ => false
  f32TruncI64 : Nat → Int := fun _ => 0
  f64TruncI64 : Nat → Int := fun _ => 0
  f32FractAbsU32 : Nat → Nat := fun _ => 0
  f64FractAbsU32 : Nat → Nat := fun _ => 0
  f32Lt0 : Nat → Bool := fun _ => false
  f64Lt0 : Nat → Bool := fun _ => false
  f32GtU64Max : Nat → Bool := fun _ => false
  f64GtU64Max : Nat → Bool := fun _ => false
  /-- Duration::from_secs_f32 in nanoseconds (callers guard the panic cases). -/
  f32SecsToNanos : Nat → Nat := fun _ => 0
  f64SecsToNanos : Nat → Nat := fun _ => 0
  f32AsU32 : Nat → Nat := fun _ => 0
  f32AsI32 : Nat → Int := fun _ => 0
  f32AsU64 : Nat → Nat := fun _ => 0
  f32AsI64 : Nat → Int := fun _ => 0
  f64AsU32 : Nat → Nat := fun _ => 0
  f64AsI32 : Nat → Int := fun _ => 0
  f64AsU64 : Nat → Nat := fun _ => 0
  f64AsI64 : Nat → Int := fun _ => 0
  u32ToF32 : Nat → Nat := fun _ => 0
  i32ToF32 : Int → Nat := fun _ => 0
  u64ToF32 : Nat → Nat := fun _ => 0
  i64ToF32 : Int → Nat := fun _ => 0
  u32ToF64 : Nat → Nat := fun _ => 0
  i32ToF64 : Int → Nat := fun _ => 0
  u64ToF64 : Nat → Nat := fun _ => 0
  i64ToF64 : Int → Nat := fun _ => 0
  f64ToF32 : Nat → Nat := fun _ => 0
  f32ToF64 : Nat → Nat := fun _ => 0
  f32Gt0 : Nat → Bool := fun _ => false
  f64Gt0 : Nat → Bool := fun _ => false
  f32ToString : Nat → Chars := fun _ => ""
  f64ToString : Nat → Chars := fun _ => ""
  /-- the whole `Typ::Duration` arm for a `DateTime` source, in nanoseconds
  (timestamp-to-float arithmetic and from_secs_f64); `none` is the panic of
  from_secs_f64 on negative timestamps. -/
  dtToDurationNanos : DtRep → Option Nat := fun _ => none
  /-- Display rendering of a `DateTime<Utc>`. -/
  dtToString : DtRep → Chars := fun _ => ""
  /-- Rendering of `format!("{}s", d.as_secs_f64())` for a Duration in
  nanoseconds (float formatting is external). -/
  durToString : Nat → Chars := fun _ => ""

/-- Concrete instantiation of `ExtFns` used by closed witness theorems. -/
def trivExt : ExtFns := {}

/-- Panic outcome of a Rust operation. -/
inductive Panic where
  | panic
deriving DecidableEq, Repr

instance {ε α : Type} [DecidableEq ε] [DecidableEq α] : DecidableEq (Except ε α) :=
  fun a b =>
    match a, b with
    | .ok x, .ok y => decidable_of_iff (x = y) (by simp)
    | .error e, .error f => decidable_of_iff (e = f) (by simp)
    | .ok _, .error _ => isFalse (by simp)
    | .error _, .ok _ => isFalse (by simp)

/-- chrono Duration::from_std: errors when the std duration exceeds
`i64::MAX` milliseconds; on success the value is the same number of
nanoseconds. -/
def chronoFromStd (nanos : Nat) : Option Nat :=
  if nanos / 1000000 > 2 ^ 63 - 1 then none else some nanos

/-- std `Duration / u32` (divisor known nonzero): seconds and subsecond
nanoseconds are divided separately with the carry redistributed, exactly as in
std.  Works on the total-nanosecond representation. -/
def durDivU32 (d : Nat) (s : Nat) : Nat :=
  let dsecs := d / nanosPerSec
  let dnanos := d % nanosPerSec
  let secs := dsecs / s
  let carry := dsecs - secs * s
  let extra := carry * nanosPerSec / s
  secs * nanosPerSec + (dnanos / s + extra)

/-- impl Add for Value (value.rs).  Unsigned and signed integer addition is
modelled with release-mode wrapping (`wrap32`/`wrapI32`/...); a debug build
would panic on overflow instead — under neither semantics is an overflow
embedded as `Value::Error`.  `Duration + Duration` is std `Duration`
addition, which panics on overflow in every build mode. -/
def valueAdd (ext : ExtFns) (lhs rhs : Value) : Except Panic Value :=
  match lhs, rhs with
  | .U32 l, .U32 r => .ok (.U32 (wrap32 (l + r)))
  | .U32 l, .V32 r => .ok (.U32 (wrap32 (l + r)))
  | .V32 l, .V32 r => .ok (.V32 (wrap32 (l + r)))
  | .V32 l, .U32 r => .ok (.U32 (wrap32 (l + r)))
  | .I32 l, .I32 r => .ok (.I32 (wrapI32 (l + r)))
  | .I32 l, .Z32 r => .ok (.I32 (wrapI32 (l + r)))
  | .Z32 l, .Z32 r => .ok (.Z32 (wrapI32 (l + r)))
  | .Z32 l, .I32 r => .ok (.I32 (wrapI32 (l + r)))
  | .U64 l, .U64 r => .ok (.U64 (wrap64 (l + r)))
  | .U64 l, .V64 r => .ok (.U64 (wrap64 (l + r)))
  | .V64 l, .V64 r => .ok (.V64 (wrap64 (l + r)))
  | .I64 l, .I64 r => .ok (.I64 (wrapI64 (l + r)))
  | .I64 l, .Z64 r => .ok (.I64 (wrapI64 (l + r)))
  | .Z64 l, .Z64 r => .ok (.Z64 (wrapI64 (l + r)))
  | .Z64 l, .I64 r => .ok (.I64 (wrapI64 (l + r)))
  | .F32 l, .F32 r => .ok (.F32 (ext.f32Add l r))
  | .F64 l, .F64 r => .ok (.F64 (ext.f64Add l r))
  | .DateTime dt, .Duration d =>
    match chronoFromStd d with
    | some cd =>
      match ext.dtPlusNanos dt cd with
      | some dt2 => .ok (.DateTime dt2)
      | none => .error .panic
    | none => .ok (.Error fromStdErrMsg)
  | .Duration d0, .Duration d1 =>
    if d0 + d1 < durBound then .ok (.Duration (d0 + d1)) else .error .panic
  | l, r => .ok (.Error (cantMsg "add" "and" l r))

/-- impl Sub for Value (value.rs).  The unsigned arms carry the source's
`if l >= r` guards (a failed guard falls through to the catch-all `Error`
arm); `Duration - Duration` is std subtraction, which panics when the right
operand exceeds the left, in every build mode. -/
def valueSub (ext : ExtFns) (lhs rhs : Value) : Except Panic Value :=
  match lhs, rhs with
  | .U32 l, .U32 r =>
    if r ≤ l then .ok (.U32 (l - r)) else .ok (.Error (cantMsg "sub" "and" (.U32 l) (.U32 r)))
  | .U32 l, .V32 r =>
    if r ≤ l then .ok (.U32 (l - r)) else .ok (.Error (cantMsg "sub" "and" (.U32 l) (.V32 r)))
  | .V32 l, .V32 r =>
    if r ≤ l then .ok (.V32 (l - r)) else .ok (.Error (cantMsg "sub" "and" (.V32 l) (.V32 r)))
  | .V32 l, .U32 r =>
    if r ≤ l then .ok (.U32 (l - r)) else .ok (.Error (cantMsg "sub" "and" (.V32 l) (.U32 r)))
  | .I32 l, .I32 r => .ok (.I32 (wrapI32 (l - r)))
  | .I32 l, .Z32 r => .ok (.I32 (wrapI32 (l - r)))
  | .Z32 l, .Z32 r => .ok (.Z32 (wrapI32 (l - r)))
  | .Z32 l, .I32 r => .ok (.I32 (wrapI32 (l - r)))
  | .U64 l, .U64 r =>
    if r ≤ l then .ok (.U64 (l - r)) else .ok (.Error (cantMsg "sub" "and" (.U64 l) (.U64 r)))
  | .U64 l, .V64 r =>
    if r ≤ l then .ok (.U64 (l - r)) else .ok (.Error (cantMsg "sub" "and" (.U64 l) (.V64 r)))
  | .V64 l, .V64 r =>
    if r ≤ l then .ok (.V64 (l - r)) else .ok (.Error (cantMsg "sub" "and" (.V64 l) (.V64 r)))
  | .I64 l, .I64 r => .ok (.I64 (wrapI64 (l - r)))
  | .I64 l, .Z64 r => .ok (.I64 (wrapI64 (l - r)))
  | .Z64 l, .Z64 r => .ok (.Z64 (wrapI64 (l - r)))
  | .Z64 l, .I64 r => .ok (.I64 (wrapI64 (l - r)))
  | .F32 l, .F32 r => .ok (.F32 (ext.f32Sub l r))
  | .F64 l, .F64 r => .ok (.F64 (ext.f64Sub l r))
  | .DateTime dt, .Duration d =>
    match chronoFromStd d with
    | some cd =>
      match ext.dtMinusNanos dt cd with
      | some dt2 => .ok (.DateTime dt2)
      | none => .error .panic
    | none => .ok (.Error fromStdErrMsg)
  | .Duration d0, .Duration d1 =>
    if d1 ≤ d0 then .ok (.Duration (d0 - d1)) else .error .panic
  | l, r => .ok (.Error (cantMsg "sub" "and" l r))

/-- impl Mul for Value (value.rs).  Integer multiplication wraps in release
builds (panics in debug); `Duration * u32` is std multiplication which panics
on overflow; `Duration * float` uses mul_f32/mul_f64 which panic on NaN,
negative or out-of-range results (`none` of the `ExtFns` field). -/
def valueMul (ext : ExtFns) (lhs rhs : Value) : Except Panic Value :=
  match lhs, rhs with
  | .U32 l, .U32 r => .ok (.U32 (wrap32 (l * r)))
  | .U32 l, .V32 r => .ok (.U32 (wrap32 (l * r)))
  | .V32 l, .V32 r => .ok (.V32 (wrap32 (l * r)))
  | .V32 l, .U32 r => .ok (.U32 (wrap32 (l * r)))
  | .I32 l, .I32 r => .ok (.I32 (wrapI32 (l * r)))
  | .I32 l, .Z32 r => .ok (.I32 (wrapI32 (l * r)))
  | .Z32 l, .Z32 r => .ok (.Z32 (wrapI32 (l * r)))
  | .Z32 l, .I32 r => .ok (.I32 (wrapI32 (l * r)))
  | .U64 l, .U64 r => .ok (.U64 (wrap64 (l * r)))
  | .U64 l, .V64 r => .ok (.U64 (wrap64 (l * r)))
  | .V64 l, .V64 r => .ok (.V64 (wrap64 (l * r)))
  | .I64 l, .I64 r => .ok (.I64 (wrapI64 (l * r)))
  | .I64 l, .Z64 r => .ok (.I64 (wrapI64 (l * r)))
  | .Z64 l, .Z64 r => .ok (.Z64 (wrapI64 (l * r)))
  | .Z64 l, .I64 r => .ok (.I64 (wrapI64 (l * r)))
  | .F32 l, .F32 r => .ok (.F32 (ext.f32Mul l r))
  | .F64 l, .F64 r => .ok (.F64 (ext.f64Mul l r))
  | .Duration d, .U32 s =>
    if d * s < durBound then .ok (.Duration (d * s)) else .error .panic
  | .U32 s, .Duration d =>
    if d * s < durBound then .ok (.Duration (d * s)) else .error .panic
  | .Duration d, .V32 s =>
    if d * s < durBound then .ok (.Duration (d * s)) else .error .panic
  | .V32 s, .Duration d =>
    if d * s < durBound then .ok (.Duration (d * s)) else .error .panic
  | .Duration d, .F32 s =>
    match ext.durMulF32 d s with
    | some d2 => .ok (.Duration d2)
    | none => .error .panic
  | .F32 s, .Duration d =>
    match ext.durMulF32 d s with
    | some d2 => .ok (.Duration d2)
    | none => .error .panic
  | .Duration d, .F64 s =>
    match ext.durMulF64 d s with
    | some d2 => .ok (.Duration d2)
    | none => .error .panic
  | .F64 s, .Duration d =>
    match ext.durMulF64 d s with
    | some d2 => .ok (.Duration d2)
    | none => .error .panic
  | l, r => .ok (.Error (cantMsg "multiply" "and" l r))

/-- impl Div for Value (value.rs).  Every integer arm carries the source's
`if r > 0` guard (note: positive, not nonzero — a failed guard falls through
to the catch-all `Error` arm); signed division with a positive divisor is
Rust truncating division (`Int.tdiv`); `Duration / u32` is std division
which panics on a zero divisor in every build mode. -/
def valueDiv (ext : ExtFns) (lhs rhs : Value) : Except Panic Value :=
  match lhs, rhs with
  | .U32 l, .U32 r =>
    if 0 < r then .ok (.U32 (l / r)) else .ok (.Error (cantMsg "divide" "by" (.U32 l) (.U32 r)))
  | .U32 l, .V32 r =>
    if 0 < r then .ok (.U32 (l / r)) else .ok (.Error (cantMsg "divide" "by" (.U32 l) (.V32 r)))
  | .V32 l, .V32 r =>
    if 0 < r then .ok (.V32 (l / r)) else .ok (.Error (cantMsg "divide" "by" (.V32 l) (.V32 r)))
  | .V32 l, .U32 r =>
    if 0 < r then .ok (.U32 (l / r)) else .ok (.Error (cantMsg "divide" "by" (.V32 l) (.U32 r)))
  | .I32 l, .I32 r =>
    if 0 < r then .ok (.I32 (Int.tdiv l r)) else .ok (.Error (cantMsg "divide" "by" (.I32 l) (.I32 r)))
  | .I32 l, .Z32 r =>
    if 0 < r then .ok (.I32 (Int.tdiv l r)) else .ok (.Error (cantMsg "divide" "by" (.I32 l) (.Z32 r)))
  | .Z32 l, .Z32 r =>
    if 0 < r then .ok (.Z32 (Int.tdiv l r)) else .ok (.Error (cantMsg "divide" "by" (.Z32 l) (.Z32 r)))
  | .Z32 l, .I32 r =>
    if 0 < r then .ok (.I32 (Int.tdiv l r)) else .ok (.Error (cantMsg "divide" "by" (.Z32 l) (.I32 r)))
  | .U64 l, .U64 r =>
    if 0 < r then .ok (.U64 (l / r)) else .ok (.Error (cantMsg "divide" "by" (.U64 l) (.U64 r)))
  | .U64 l, .V64 r =>
    if 0 < r then .ok (.U64 (l / r)) else .ok (.Error (cantMsg "divide" "by" (.U64 l) (.V64 r)))
  | .V64 l, .V64 r =>
    if 0 < r then .ok (.V64 (l / r)) else .ok (.Error (cantMsg "divide" "by" (.V64 l) (.V64 r)))
  | .I64 l, .I64 r =>
    if 0 < r then .ok (.I64 (Int.tdiv l r)) else .ok (.Error (cantMsg "divide" "by" (.I64 l) (.I64 r)))
  | .I64 l, .Z64 r =>
    if 0 < r then .ok (.I64 (Int.tdiv l r)) else .ok (.Error (cantMsg "divide" "by" (.I64 l) (.Z64 r)))
  | .Z64 l, .Z64 r =>
    if 0 < r then .ok (.Z64 (Int.tdiv l r)) else .ok (.Error (cantMsg "divide" "by" (.Z64 l) (.Z64 r)))
  | .Z64 l, .I64 r =>
    if 0 < r then .ok (.I64 (Int.tdiv l r)) else .ok (.Error (cantMsg "divide" "by" (.Z64 l) (.I64 r)))
  | .F32 l, .F32 r => .ok (.F32 (ext.f32Div l r))
  | .F64 l, .F64 r => .ok (.F64 (ext.f64Div l r))
  | .Duration d, .U32 s =>
    if s = 0 then .error .panic else .ok (.Duration (durDivU32 d s))
  | .Duration d, .V32 s =>
    if s = 0 then .error .panic else .ok (.Duration (durDivU32 d s))
  | .Duration d, .F32 s =>
    match ext.durDivF32 d s with
    | some d2 => .ok (.Duration d2)
    | none => .error .panic
  | .Duration d, .F64 s =>
    match ext.durDivF64 d s with
    | some d2 => .ok (.Duration d2)
    | none => .error .panic
  | l, r => .ok (.Error (cantMsg "divide" "by" l r))

/-- IEEE-754 bit pattern of `1.0f32`. -/
def one32bits : Nat := 1065353216

/-- IEEE-754 bit pattern of `1.0f64`. -/
def one64bits : Nat := 4607182418800017408

/-- Rust release-mode `i32::abs(v) as u64`: `abs` of `i32::MIN` wraps to
`i32::MIN`, which sign-extends to `2^64 - 2^31` (a debug build panics in
`abs` instead). -/
def i32AbsWrapAsU64 (v : Int) : Nat :=
  if v = -(2 ^ 31) then 2 ^ 64 - 2 ^ 31 else v.natAbs

/-- Rust release-mode `i64::abs(v) as u64`: `abs` of `i64::MIN` wraps to
`i64::MIN`, which reinterprets as `2^63`. -/
def i64AbsWrapAsU64 (v : Int) : Nat :=
  if v = -(2 ^ 63) then 2 ^ 63 else v.natAbs

/-- Value::cast from value.rs, matching on the target `typ` first and the
source value second, arm for arm.  `Duration` payloads are total
nanoseconds, so `as_secs()` is division by `nanosPerSec` and
`subsec_nanos()` the remainder. -/
def Value.cast (ext : ExtFns) (v : Value) (typ : Typ) : Option Value :=
  match typ with
  | .U32 =>
    match v with
    | .U32 v => some (.U32 v)
    | .V32 v => some (.U32 v)
    | .I32 v => some (.U32 (wrapU32OfInt v))
    | .Z32 v => some (.U32 (wrapU32OfInt v))
    | .U64 v => some (.U32 (wrap32 v))
    | .V64 v => some (.U32 (wrap32 v))
    | .I64 v => some (.U32 (wrapU32OfInt v))
    | .Z64 v => some (.U32 (wrapU32OfInt v))
    | .F32 v => some (.U32 (ext.f32AsU32 v))
    | .F64 v => some (.U32 (ext.f64AsU32 v))
    | .DateTime _ => none
    | .Duration d => some (.U32 (wrap32 (d / nanosPerSec)))
    | .String s => ext.parse .U32 s
    | .Bytes _ => none
    | .True => some (.U32 1)
    | .False => some (.U32 0)
    | .Null => none
    | .Ok => none
    | .Error _ => none
  | .V32 =>
    match v with
    | .U32 v => some (.V32 v)
    | .V32 v => some (.V32 v)
    | .I32 v => some (.V32 (wrapU32OfInt v))
    | .Z32 v => some (.V32 (wrapU32OfInt v))
    | .U64 v => some (.V32 (wrap32 v))
    | .V64 v => some (.V32 (wrap32 v))
    | .I64 v => some (.V32 (wrapU32OfInt v))
    | .Z64 v => some (.V32 (wrapU32OfInt v))
    | .F32 v => some (.V32 (ext.f32AsU32 v))
    | .F64 v => some (.V32 (ext.f64AsU32 v))
    | .DateTime _ => none
    | .Duration d => some (.V32 (wrap32 (d / nanosPerSec)))
    | .String s => ext.parse .V32 s
    | .Bytes _ => none
    | .True => some (.V32 1)
    | .False => some (.V32 0)
    | .Null => none
    | .Ok => none
    | .Error _ => none
  | .I32 =>
    match v with
    | .U32 v => some (.I32 (wrapI32OfNat v))
    | .V32 v => some (.I32 (wrapI32OfNat v))
    | .I32 v => some (.I32 v)
    | .Z32 v => some (.I32 v)
    | .U64 v => some (.I32 (wrapI32OfNat v))
    | .V64 v => some (.I32 (wrapI32OfNat v))
    | .I64 v => some (.I32 (wrapI32 v))
    | .Z64 v => some (.I32 (wrapI32 v))
    | .F32 v => some (.I32 (ext.f32AsI32 v))
    | .F64 v => some (.I32 (ext.f64AsI32 v))
    | .DateTime d => some (.I32 (wrapI32 d.secs))
    | .Duration d => some (.I32 (wrapI32OfNat (d / nanosPerSec)))
    | .String s => ext.parse .I32 s
    | .Bytes _ => none
    | .True => some (.I32 1)
    | .False => some (.I32 0)
    | .Null => none
    | .Ok => none
    | .Error _ => none
  | .Z32 =>
    match v with
    | .U32 v => some (.Z32 (wrapI32OfNat v))
    | .V32 v => some (.Z32 (wrapI32OfNat v))
    | .I32 v => some (.Z32 v)
    | .Z32 v => some (.Z32 v)
    | .U64 v => some (.Z32 (wrapI32OfNat v))
    | .V64 v => some (.Z32 (wrapI32OfNat v))
    | .I64 v => some (.Z32 (wrapI32 v))
    | .Z64 v => some (.Z32 (wrapI32 v))
    | .F32 v => some (.Z32 (ext.f32AsI32 v))
    | .F64 v => some (.Z32 (ext.f64AsI32 v))
    | .DateTime d => some (.Z32 (wrapI32 d.secs))
    | .Duration d => some (.Z32 (wrapI32OfNat (d / nanosPerSec)))
    | .String s => ext.parse .Z32 s
    | .Bytes _ => none
    | .True => some (.Z32 1)
    | .False => some (.Z32 0)
    | .Null => none
    | .Ok => none
    | .Error _ => none
  | .U64 =>
    match v with
    | .U32 v => some (.U64 v)
    | .V32 v => some (.U64 v)
    | .I32 v => some (.U64 (wrapU64OfInt v))
    | .Z32 v => some (.U64 (wrapU64OfInt v))
    | .U64 v => some (.U64 v)
    | .V64 v => some (.U64 v)
    | .I64 v => some (.U64 (wrapU64OfInt v))
    | .Z64 v => some (.U64 (wrapU64OfInt v))
    | .F32 v => some (.U64 (ext.f32AsU64 v))
    | .F64 v => some (.U64 (ext.f64AsU64 v))
    | .DateTime _ => none
    | .Duration d => some (.U64 (d / nanosPerSec))
    | .String s => ext.parse .U64 s
    | .Bytes _ => none
    | .True => some (.U64 1)
    | .False => some (.U64 0)
    | .Null => none
    | .Ok => none
    | .Error _ => none
  | .V64 =>
    match v with
    | .U32 v => some (.V64 v)
    | .V32 v => some (.V64 v)
    | .I32 v => some (.V64 (wrapU64OfInt v))
    | .Z32 v => some (.V64 (wrapU64OfInt v))
    | .U64 v => some (.V64 v)
    | .V64 v => some (.V64 v)
    | .I64 v => some (.V64 (wrapU64OfInt v))
    | .Z64 v => some (.V64 (wrapU64OfInt v))
    | .F32 v => some (.V64 (ext.f32AsU64 v))
    | .F64 v => some (.V64 (ext.f64AsU64 v))
    | .DateTime _ => none
    | .Duration d => some (.V64 (d / nanosPerSec))
    | .String s => ext.parse .V64 s
    | .Bytes _ => none
    | .True => some (.V64 1)
    | .False => some (.V64 0)
    | .Null => none
    | .Ok => none
    | .Error _ => none
  | .I64 =>
    match v with
    | .U32 v => some (.I64 v)
    | .V32 v => some (.I64 v)
    | .I32 v => some (.I64 v)
    | .Z32 v => some (.I64 v)
    | .U64 v => some (.I64 (wrapI64OfNat v))
    | .V64 v => some (.I64 (wrapI64OfNat v))
    | .I64 v => some (.I64 v)
    | .Z64 v => some (.I64 v)
    | .F32 v => some (.I64 (ext.f32AsI64 v))
    | .F64 v => some (.I64 (ext.f64AsI64 v))
    | .DateTime d => some (.I64 d.secs)
    | .Duration d => some (.I64 (wrapI64OfNat (d / nanosPerSec)))
    | .String s => ext.parse .I64 s
    | .Bytes _ => none
    | .True => some (.I64 1)
    | .False => some (.I64 0)
    | .Null => none
    | .Ok => none
    | .Error _ => none
  | .Z64 =>
    match v with
    | .U32 v => some (.Z64 v)
    | .V32 v => some (.Z64 v)
    | .I32 v => some (.Z64 v)
    | .Z32 v => some (.Z64 v)
    | .U64 v => some (.Z64 (wrapI64OfNat v))
    | .V64 v => some (.Z64 (wrapI64OfNat v))
    | .I64 v => some (.Z64 v)
    | .Z64 v => some (.Z64 v)
    | .F32 v => some (.Z64 (ext.f32AsI64 v))
    | .F64 v => some (.Z64 (ext.f64AsI64 v))
    | .DateTime d => some (.Z64 (wrapI64 d.secs))
    | .Duration d => some (.Z64 (wrapI64OfNat (d / nanosPerSec)))
    | .String s => ext.parse .Z64 s
    | .Bytes _ => none
    | .True => some (.Z64 1)
    | .False => some (.Z64 0)
    | .Null => none
    | .Ok => none
    | .Error _ => none
  | .F32 =>
    match v with
    | .U32 v => some (.F32 (ext.u32ToF32 v))
    | .V32 v => some (.F32 (ext.u32ToF32 v))
    | .I32 v => some (.F32 (ext.i32ToF32 v))
    | .Z32 v => some (.F32 (ext.i32ToF32 v))
    | .U64 v => some (.F32 (ext.u64ToF32 v))
    | .V64 v => some (.F32 (ext.u64ToF32 v))
    | .I64 v => some (.F32 (ext.i64ToF32 v))
    | .Z64 v => some (.F32 (ext.i64ToF32 v))
    | .F32 v => some (.F32 v)
    | .F64 v => some (.F32 (ext.f64ToF32 v))
    | .DateTime d => some (.F32 (ext.i64ToF32 d.secs))
    | .Duration d => some (.F32 (ext.u64ToF32 (d / nanosPerSec)))
    | .String s => ext.parse .F32 s
    | .Bytes _ => none
    | .True => some (.F32 one32bits)
    | .False => some (.F32 0)
    | .Null => none
    | .Ok => none
    | .Error _ => none
  | .F64 =>
    match v with
    | .U32 v => some (.F64 (ext.u32ToF64 v))
    | .V32 v => some (.F64 (ext.u32ToF64 v))
    | .I32 v => some (.F64 (ext.i32ToF64 v))
    | .Z32 v => some (.F64 (ext.i32ToF64 v))
    | .U64 v => some (.F64 (ext.u64ToF64 v))
    | .V64 v => some (.F64 (ext.u64ToF64 v))
    | .I64 v => some (.F64 (ext.i64ToF64 v))
    | .Z64 v => some (.F64 (ext.i64ToF64 v))
    | .F32 v => some (.F64 (ext.f32ToF64 v))
    | .F64 v => some (.F64 v)
    | .DateTime d => some (.F64 (ext.i64ToF64 d.secs))
    | .Duration d => some (.F64 (ext.u64ToF64 (d / nanosPerSec)))
    | .String s => ext.parse .F64 s
    | .Bytes _ => none
    | .True => some (.F64 one64bits)
    | .False => some (.F64 0)
    | .Null => none
    | .Ok => none
    | .Error _ => none
  | .Bool =>
    match v with
    | .U32 v => some (if 0 < v then .True else .False)
    | .V32 v => some (if 0 < v then .True else .False)
    | .I32 v => some (if 0 < v then .True else .False)
    | .Z32 v => some (if 0 < v then .True else .False)
    | .U64 v => some (if 0 < v then .True else .False)
    | .V64 v => some (if 0 < v then .True else .False)
    | .I64 v => some (if 0 < v then .True else .False)
    | .Z64 v => some (if 0 < v then .True else .False)
    | .F32 v => some (if ext.f32Gt0 v then .True else .False)
    | .F64 v => some (if ext.f64Gt0 v then .True else .False)
    | .DateTime _ => none
    | .Duration _ => none
    | .String s => ext.parse .Bool s
    | .Bytes _ => none
    | .True => some .True
    | .False => some .False
    | .Null => some .False
    | .Ok => some .True
    | .Error _ => some .False
  | .String =>
    match v with
    | .U32 v => some (.String (toString v))
    | .V32 v => some (.String (toString v))
    | .I32 v => some (.String (toString v))
    | .Z32 v => some (.String (toString v))
    | .U64 v => some (.String (toString v))
    | .V64 v => some (.String (toString v))
    | .I64 v => some (.String (toString v))
    | .Z64 v => some (.String (toString v))
    | .F32 v => some (.String (ext.f32ToString v))
    | .F64 v => some (.String (ext.f64ToString v))
    | .DateTime d => some (.String (ext.dtToString d))
    | .Duration d => some (.String (ext.durToString d))
    | .String s => some (.String s)
    | .Bytes _ => none
    | .True => some (.String "true")
    | .False => some (.String "false")
    | .Null => some (.String "null")
    | .Ok => some (.String "ok")
    | .Error s => some (.String s)
  | .Bytes => none
  | .Result =>
    match v with
    | .U32 _ => some .Ok
    | .V32 _ => some .Ok
    | .I32 _ => some .Ok
    | .Z32 _ => some .Ok
    | .U64 _ => some .Ok
    | .V64 _ => some .Ok
    | .I64 _ => some .Ok
    | .Z64 _ => some .Ok
    | .F32 _ => some .Ok
    | .F64 _ => some .Ok
    | .DateTime _ => some .Ok
    | .Duration _ => some .Ok
    | .String s => ext.parse .Result s
    | .Bytes _ => none
    | .True => some .Ok
    | .False => some .Ok
    | .Null => some .Ok
    | .Ok => some .Ok
    | .Error s => some (.Error s)
  | .DateTime =>
    match v with
    | .U32 v => (ext.fromTimestampOpt v 0).map .DateTime
    | .V32 v => (ext.fromTimestampOpt v 0).map .DateTime
    | .I32 v => (ext.fromTimestampOpt v 0).map .DateTime
    | .Z32 v => (ext.fromTimestampOpt v 0).map .DateTime
    | .U64 v => (ext.fromTimestampOpt (wrapI64OfNat v) 0).map .DateTime
    | .V64 v => (ext.fromTimestampOpt (wrapI64OfNat v) 0).map .DateTime
    | .I64 v => (ext.fromTimestampOpt v 0).map .DateTime
    | .Z64 v => (ext.fromTimestampOpt v 0).map .DateTime
    | .F32 v =>
      if ext.f32IsNanInf v then none
      else (ext.fromTimestampOpt (ext.f32TruncI64 v) (ext.f32FractAbsU32 v)).map .DateTime
    | .F64 v =>
      if ext.f64IsNanInf v then none
      else (ext.fromTimestampOpt (ext.f64TruncI64 v) (ext.f64FractAbsU32 v)).map .DateTime
    | .DateTime d => some (.DateTime d)
    | .Duration d =>
      (ext.fromTimestampOpt (wrapI64OfNat (d / nanosPerSec)) (d % nanosPerSec)).map .DateTime
    | .String s => ext.parse .DateTime s
    | .Bytes _ => none
    | .True => none
    | .False => none
    | .Null => none
    | .Ok => none
    | .Error _ => none
  | .Duration =>
    match v with
    | .U32 v => some (.Duration (v * nanosPerSec))
    | .V32 v => some (.Duration (v * nanosPerSec))
    | .I32 v => some (.Duration (i32AbsWrapAsU64 v * nanosPerSec))
    | .Z32 v => some (.Duration (i32AbsWrapAsU64 v * nanosPerSec))
    | .U64 v => some (.Duration (v * nanosPerSec))
    | .V64 v => some (.Duration (v * nanosPerSec))
    | .I64 v => some (.Duration (i64AbsWrapAsU64 v * nanosPerSec))
    | .Z64 v => some (.Duration (i64AbsWrapAsU64 v * nanosPerSec))
    | .F32 v =>
      if ext.f32IsNanInf v then none
      else if ext.f32Lt0 v || ext.f32GtU64Max v then none
      else some (.Duration (ext.f32SecsToNanos v))
    | .F64 v =>
      if ext.f64IsNanInf v then none
      else if ext.f64Lt0 v || ext.f64GtU64Max v then none
      else some (.Duration (ext.f64SecsToNanos v))
    | .DateTime d => (ext.dtToDurationNanos d).map .Duration
    | .Duration d => some (.Duration d)
    | .String s => ext.parse .Duration s
    | .Bytes _ => none
    | .True => none
    | .False => none
    | .Null => none
    | .Ok => none
    | .Error _ => none

/-- Maximum batch/message size from channel.rs (`MAX_BATCH = 0x3FFFFFFF`). -/
def MAX_BATCH : Nat := 0x3FFFFFFF

section Channel

variable {Ctx Payload : Type}

/-- A parsed frame header plus payload, as assembled by `read_task` in
channel.rs: the top header bit is the encrypted flag. -/
structure Frame (Payload : Type) where
  encrypted : Bool
  payload : Payload
deriving DecidableEq, Repr

/-- State of the `set_ctx` oneshot as seen by the read task: `pending o`
means the receiver is still armed and will eventually yield `o` (`none`
models the sender being dropped, i.e. a cancellation); `spent` is the
dangling receiver the task installs after consuming the first one
(`set_ctx = oneshot::channel().1`). -/
inductive SetCtxSlot (Ctx : Type) where
  | pending (o : Option Ctx)
  | spent
deriving DecidableEq, Repr

/-- Mutable state of the read task loop in channel.rs. -/
structure RState (Ctx : Type) where
  ctx : Option Ctx
  slot : SetCtxSlot Ctx
deriving DecidableEq, Repr

/-- Ways the read task terminates with an error. -/
inductive ReadFailure where
  /-- `break 'main Err(anyhow!("encryption is required"))` -/
  | encryptionRequired
  /-- the `set_ctx.await` oneshot was cancelled -/
  | ctxCanceled
  /-- `ctx.unwrap_iov` returned an error -/
  | unwrapFailed
deriving DecidableEq, Repr

/-- One iteration of the frame-processing loop of `read_task` (channel.rs):
given the current state and a complete frame, either deliver a payload
downstream with the successor state, or fail the connection.  The
`unwrap` parameter is the security context's `unwrap_iov`. -/
def readStep (unwrap : Ctx → Payload → Except Unit Payload)
    (s : RState Ctx) (f : Frame Payload) :
    Except ReadFailure (Payload × RState Ctx) :=
  if !f.encrypted then
    match s.ctx with
    | some _ => .error .encryptionRequired
    | none => .ok (f.payload, s)
  else
    match s.ctx with
    | some c =>
      match unwrap c f.payload with
      | .ok p => .ok (p, s)
      | .error _ => .error .unwrapFailed
    | none =>
      match s.slot with
      | .pending (some c) =>
        match unwrap c f.payload with
        | .ok p => .ok (p, { ctx := some c, slot := .spent })
        | .error _ => .error .unwrapFailed
      | .pending none => .error .ctxCanceled
      | .spent => .error .ctxCanceled

/-- The read task over a sequence of complete frames: payloads delivered to
the inbound channel, and the failure that terminated the loop, if any. -/
def readRun (unwrap : Ctx → Payload → Except Unit Payload)
    (s : RState Ctx) (frames : List (Frame Payload)) :
    List Payload × Option ReadFailure :=
  match frames with
  | [] => ([], none)
  | f :: rest =>
    match readStep unwrap s f with
    | .error e => ([], some e)
    | .ok (p, s2) =>
      let r := readRun unwrap s2 rest
      (p :: r.1, r.2)

/-- ReadChannel::set_ctx (channel.rs): `mem::replace(&mut self.set_ctx,
None).unwrap().send(ctx)`.  The state is the `set_ctx : Option<Sender>`
field; a second call finds `None` and the `unwrap` panics. -/
def ReadChannel.setCtx (set_ctx : Option Ctx) : Except Panic (Option Ctx) :=
  match set_ctx with
  | some _ => .ok none
  | none => .error .panic

/-- Channel::set_ctx (channel.rs) forwards to the read half (the write half
send never panics), so its effect on the read-side slot is the same. -/
def Channel.setCtx (set_ctx : Option Ctx) : Except Panic (Option Ctx) :=
  ReadChannel.setCtx set_ctx

end Channel

/-- Observable state of a WriteChannel (channel.rs): the unsent byte buffer
and the segment-boundary list. -/
structure WriteState where
  buf : List Nat
  boundries : List Nat
deriving DecidableEq, Repr

/-- A packable message as `queue_send` observes it: its reported
`encoded_len`, and the result of `encode` (`some bytes` appends the bytes,
`none` is an encode error; bytes written before the error are removed again
by the `resize` in the rollback, so they are not modelled). -/
structure PackMsg where
  encodedLen : Nat
  encodeRes : Option (List Nat)
deriving DecidableEq, Repr

/-- Error results of `queue_send`. -/
inductive QueueErr where
  | tooBig
  | encodeFailed
deriving DecidableEq, Repr

/-- WriteChannel::queue_send (channel.rs), returning the result together
with the successor buffer state.  `buf_len - boundries.last()` is usize
arithmetic; it is modelled with truncating `Nat` subtraction (the entries
never exceed the buffer length in reachable states).  On an encode error
the source does `self.buf.resize(buf_len, 0)` (restoring the buffer) and
`self.boundries.pop()` — unconditionally, whether or not this call pushed a
boundary. -/
def queueSend (st : WriteState) (msg : PackMsg) : Except QueueErr Unit × WriteState :=
  if msg.encodedLen > MAX_BATCH then
    (.error .tooBig, st)
  else
    let bufLen := st.buf.length
    let st1 :=
      if bufLen - (st.boundries.getLast?.getD 0) + msg.encodedLen > MAX_BATCH then
        { st with boundries := st.boundries ++ [bufLen - st.boundries.sum] }
      else st
    match msg.encodeRes with
    | some bs => (.ok (), { st1 with buf := st1.buf ++ bs })
    | none => (.error .encodeFailed, { buf := st.buf, boundries := st1.boundries.dropLast })

/-- Resolver write requests (ToWrite).  Modelled from the spec: the enum is
declared in the netidx-netproto resolver module, which is not among the
provided sources; §6 of the spec lists exactly these operations. -/
inductive ToWrite where
  | Publish (p : Chars)
  | PublishDefault (p : Chars)
  | PublishWithFlags (p : Chars) (flags : Nat)
  | PublishDefaultWithFlags (p : Chars) (flags : Nat)
  | Unpublish (p : Chars)
  | UnpublishDefault (p : Chars)
  | Clear
  | Heartbeat
deriving DecidableEq, Repr

/-- Resolver write responses (FromWrite acks).  Modelled from the spec (§6):
`Published`, `Unpublished`. -/
inductive FromWrite where
  | Published
  | Unpublished
deriving DecidableEq, Repr

/-- Observable events of the write-client batch loop, in order: acks queued
on the connection, forced flushes, and invocations of
`store.handle_clear(uifo, write_addr)`. -/
inductive WEvent where
  | ack (m : FromWrite)
  | flush
  | handleClear
deriving DecidableEq, Repr

/-- Events of one message inside the pre-Clear drain loop of
`client_loop_write` (resolver_server.rs, the `for m in batch.drain(..)`
match). -/
def drainEvents : ToWrite → List WEvent
  | .Heartbeat => []
  | .Publish _ => [.ack .Published]
  | .PublishDefault _ => [.ack .Published]
  | .PublishWithFlags _ _ => [.ack .Published]
  | .PublishDefaultWithFlags _ _ => [.ack .Published]
  | .Unpublish _ => [.ack .Unpublished]
  | .UnpublishDefault _ => [.ack .Unpublished]
  | .Clear => [.handleClear, .ack .Unpublished]

/-- Modelled from the spec: `Store::handle_batch_write` lives in
shard_resolver_store.rs, which is not among the provided sources.  Per §4.3
and §6 of the spec, publish operations are acknowledged `Published` and
unpublish operations `Unpublished`; heartbeats produce nothing.  The loop in
`client_loop_write` removes every `Clear` before this call, so the `Clear`
case is unreachable there (modelled as producing nothing). -/
def specHandleBatchWrite (batch : List ToWrite) : List WEvent :=
  batch.flatMap fun m =>
    match m with
    | .Heartbeat => []
    | .Publish _ => [.ack .Published]
    | .PublishDefault _ => [.ack .Published]
    | .PublishWithFlags _ _ => [.ack .Published]
    | .PublishDefaultWithFlags _ _ => [.ack .Published]
    | .Unpublish _ => [.ack .Unpublished]
    | .UnpublishDefault _ => [.ack .Unpublished]
    | .Clear => []

/-- The event stream of the `while let Some((i, _)) = ...find(Clear)` loop
of `client_loop_write` (resolver_server.rs) followed by the final
`handle_batch_write` on the remainder.  The source drains every message up
to and including the first `Clear` (queueing acks), forces a flush, loops
on the rest, and hands the Clear-free remainder to `handle_batch_write`;
since a non-Clear message contributes the same events in the drain loop and
in `handle_batch_write`, the stream is computed per element: a `Clear`
contributes `handle_clear`, its `Unpublished` ack and the forced flush, and
every other message its ack events.  The split shape of the source loop is
recovered by `c5_clear_splits_batches` below. -/
def clearLoop : List ToWrite → List WEvent
  | [] => []
  | .Clear :: rest => [.handleClear, .ack .Unpublished, .flush] ++ clearLoop rest
  | m :: rest => drainEvents m ++ clearLoop rest

/-- One received write batch in `client_loop_write` (resolver_server.rs): a
singleton `Heartbeat` is skipped entirely (`continue 'main`); otherwise the
Clear-splitting loop runs and the remainder goes to `handle_batch_write`. -/
def processWriteBatch (batch : List ToWrite) : List WEvent :=
  if batch = [ToWrite.Heartbeat] then [] else clearLoop batch

/-- Projection of the event stream to the acks the writer receives. -/
def acksOf (evs : List WEvent) : List FromWrite :=
  evs.filterMap fun e =>
    match e with
    | .ack m => some m
    | .flush => none
    | .handleClear => none

section Subscriber

variable {Addr Path Id Sub : Type}

/-- Per-path state of `subscribe_raw` (src/subscriber.rs, the local `St`
enum). -/
inductive St (Sub : Type) where
  | Resolve
  | Subscribing
  | WaitingOther
  | Subscribed (s : Sub)
  | Error (msg : Chars)
deriving DecidableEq, Repr

/-- Result of awaiting a oneshot receiver: the sender was dropped
(`canceled`) or a message arrived. -/
inductive OneshotRes (α : Type) where
  | canceled
  | msg (a : α)
deriving DecidableEq, Repr

/-- State of a path after the resolver replied (src/subscriber.rs, the
`Ok(addrs)` branch): zero addresses fail the path with `path not found`;
otherwise one address is chosen and a Subscribe control message sent,
leaving the path `Subscribing`. -/
def resolvedSt (addrs : List Addr) : St Sub :=
  if addrs.length = 0 then .Error "path not found" else .Subscribing

/-- The `St::WaitingOther(w)` arm of the wait loop of `subscribe_raw`:
a dropped sender (the initiating caller went away) becomes
`other side died`. -/
def waitOther (w : OneshotRes (Except Chars Sub)) : St Sub :=
  match w with
  | .canceled => .Error "other side died"
  | .msg (.error e) => .Error e
  | .msg (.ok raw) => .Subscribed raw

/-- The awaited result in the `St::Subscribing(w)` arm of `subscribe_raw`:
a dropped sender (the connection task died before answering) becomes
`connection died`. -/
def waitSubscribing (w : OneshotRes (Except Chars Sub)) : Except Chars Sub :=
  match w with
  | .canceled => .error "connection died"
  | .msg (.error e) => .error e
  | .msg (.ok raw) => .ok raw

/-- Publisher-to-subscriber control messages (src/subscriber.rs). -/
inductive FromPublisher (Path Id : Type) where
  | Message (id : Id)
  | NoSuchValue (p : Path)
  | Subscribed (p : Path) (id : Id)
  | Unsubscribed (id : Id)
deriving DecidableEq, Repr

/-- Observable outcome of `handle_control` (src/subscriber.rs): the new
pending set, the replies delivered to `finished` oneshots, the staged
`next_val` / `next_sub`, the id removed by `Unsubscribed`, and whether the
call returned an error (`unsolicited`). -/
structure HCRes (Path Id Sub : Type) where
  pending : List Path
  replies : List (Path × Except Chars Sub)
  nextVal : Option Id
  nextSubStaged : Bool
  removed : Option Id
  failed : Bool
deriving Repr

/-- handle_control (src/subscriber.rs) on a successfully decoded message.
The pending map is modelled by its key set (a list of paths). -/
def handleControl [DecidableEq Path] (pending : List Path)
    (m : FromPublisher Path Id) : HCRes Path Id Sub :=
  match m with
  | .Message id =>
    { pending := pending, replies := [], nextVal := some id
      nextSubStaged := false, removed := none, failed := false }
  | .NoSuchValue p =>
    if p ∈ pending then
      { pending := pending.erase p, replies := [(p, .error "no such value")]
        nextVal := none, nextSubStaged := false, removed := none, failed := false }
    else
      { pending := pending, replies := [], nextVal := none
        nextSubStaged := false, removed := none, failed := false }
  | .Subscribed p id =>
    if p ∈ pending then
      { pending := pending.erase p, replies := [], nextVal := some id
        nextSubStaged := true, removed := none, failed := false }
    else
      { pending := pending, replies := [], nextVal := none
        nextSubStaged := false, removed := none, failed := true }
  | .Unsubscribed id =>
    { pending := pending, replies := [], nextVal := none
      nextSubStaged := false, removed := some id, failed := false }

end Subscriber

/-- Pairs matched by a non-catch-all arm of `impl Add for Value`
(type-compatible pairs for addition).  Note the source has no
`(V64, U64)` arm, unlike the 32-bit group. -/
def addCompat (l r : Value) : Bool :=
  match l, r with
  | .U32 _, .U32 _ | .U32 _, .V32 _ | .V32 _, .V32 _ | .V32 _, .U32 _
  | .I32 _, .I32 _ | .I32 _, .Z32 _ | .Z32 _, .Z32 _ | .Z32 _, .I32 _
  | .U64 _, .U64 _ | .U64 _, .V64 _ | .V64 _, .V64 _
  | .I64 _, .I64 _ | .I64 _, .Z64 _ | .Z64 _, .Z64 _ | .Z64 _, .I64 _
  | .F32 _, .F32 _ | .F64 _, .F64 _
  | .DateTime _, .Duration _ | .Duration _, .Duration _ => true
  | _, _ => false

/-- Pairs matched by a non-catch-all arm of `impl Sub for Value` (the same
shapes as addition; the unsigned arms additionally carry `l >= r` guards,
which is a separate condition from pattern compatibility). -/
def subCompat (l r : Value) : Bool :=
  match l, r with
  | .U32 _, .U32 _ | .U32 _, .V32 _ | .V32 _, .V32 _ | .V32 _, .U32 _
  | .I32 _, .I32 _ | .I32 _, .Z32 _ | .Z32 _, .Z32 _ | .Z32 _, .I32 _
  | .U64 _, .U64 _ | .U64 _, .V64 _ | .V64 _, .V64 _
  | .I64 _, .I64 _ | .I64 _, .Z64 _ | .Z64 _, .Z64 _ | .Z64 _, .I64 _
  | .F32 _, .F32 _ | .F64 _, .F64 _
  | .DateTime _, .Duration _ | .Duration _, .Duration _ => true
  | _, _ => false

/-- Pairs matched by a non-catch-all arm of `impl Mul for Value`:
numeric pairs plus `Duration × {u32, v32, f32, f64}` in both orders. -/
def mulCompat (l r : Value) : Bool :=
  match l, r with
  | .U32 _, .U32 _ | .U32 _, .V32 _ | .V32 _, .V32 _ | .V32 _, .U32 _
  | .I32 _, .I32 _ | .I32 _, .Z32 _ | .Z32 _, .Z32 _ | .Z32 _, .I32 _
  | .U64 _, .U64 _ | .U64 _, .V64 _ | .V64 _, .V64 _
  | .I64 _, .I64 _ | .I64 _, .Z64 _ | .Z64 _, .Z64 _ | .Z64 _, .I64 _
  | .F32 _, .F32 _ | .F64 _, .F64 _
  | .Duration _, .U32 _ | .U32 _, .Duration _
  | .Duration _, .V32 _ | .V32 _, .Duration _
  | .Duration _, .F32 _ | .F32 _, .Duration _
  | .Duration _, .F64 _ | .F64 _, .Duration _ => true
  | _, _ => false

/-- Pairs matched by a non-catch-all arm of `impl Div for Value`:
numeric pairs plus `Duration / {u32, v32, f32, f64}` (one order only; the
integer arms additionally carry `r > 0` guards). -/
def divCompat (l r : Value) : Bool :=
  match l, r with
  | .U32 _, .U32 _ | .U32 _, .V32 _ | .V32 _, .V32 _ | .V32 _, .U32 _
  | .I32 _, .I32 _ | .I32 _, .Z32 _ | .Z32 _, .Z32 _ | .Z32 _, .I32 _
  | .U64 _, .U64 _ | .U64 _, .V64 _ | .V64 _, .V64 _
  | .I64 _, .I64 _ | .I64 _, .Z64 _ | .Z64 _, .Z64 _ | .Z64 _, .I64 _
  | .F32 _, .F32 _ | .F64 _, .F64 _
  | .Duration _, .U32 _ | .Duration _, .V32 _
  | .Duration _, .F32 _ | .Duration _, .F64 _ => true
  | _, _ => false

/-- C3 counterexample: the claim fails at a `Bytes` value.  `Typ::get`
of `Bytes []` is `Typ::Bytes`, but the entire `Typ::Bytes` target arm of
`Value::cast` is `None`, so the cast does not return the value itself. -/
theorem c3_cast_idempotence_counterexample :
    Typ.get (Value.Bytes []) = some Typ.Bytes ∧
    Value.cast trivExt (Value.Bytes []) Typ.Bytes = none ∧
    Value.cast trivExt (Value.Bytes []) Typ.Bytes ≠ some (Value.Bytes []) := by
  decide

/-- C3 amended: cast idempotence holds for every value other than `Null`
(which has no tag) and other than `Bytes` values (whose target arm is
`None`): for such `v` there is a tag `t = Typ::get(v)` and
`cast(v, t) = Some(v)`, for every instantiation of the external functions. -/
theorem c3_cast_idempotence_amended :
    ∀ (ext : ExtFns) (v : Value), v ≠ Value.Null → (∀ b, v ≠ Value.Bytes b) →
      ∃ t, Typ.get v = some t ∧ Value.cast ext v t = some v := by
  intro ext v hnull hbytes
  cases v with
  | Null => exact absurd rfl hnull
  | Bytes b => exact absurd rfl (hbytes b)
  | U32 v => exact ⟨_, rfl, rfl⟩
  | V32 v => exact ⟨_, rfl, rfl⟩
  | I32 v => exact ⟨_, rfl, rfl⟩
  | Z32 v => exact ⟨_, rfl, rfl⟩
  | U64 v => exact ⟨_, rfl, rfl⟩
  | V64 v => exact ⟨_, rfl, rfl⟩
  | I64 v => exact ⟨_, rfl, rfl⟩
  | Z64 v => exact ⟨_, rfl, rfl⟩
  | F32 v => exact ⟨_, rfl, rfl⟩
  | F64 v => exact ⟨_, rfl, rfl⟩
  | DateTime d => exact ⟨_, rfl, rfl⟩
  | Duration d => exact ⟨_, rfl, rfl⟩
  | String s => exact ⟨_, rfl, rfl⟩
  | True => exact ⟨_, rfl, rfl⟩
  | False => exact ⟨_, rfl, rfl⟩
  | Ok => exact ⟨_, rfl, rfl⟩
  | Error s => exact ⟨_, rfl, rfl⟩

/-- C3 witness: the amended idempotence applied at the concrete value
`U32 5` with the trivial external functions. -/
theorem c3_cast_idempotence_witness :
    Value.U32 5 ≠ Value.Null ∧
    (∃ t, Typ.get (Value.U32 5) = some t ∧
      Value.cast trivExt (Value.U32 5) t = some (Value.U32 5)) :=
  ⟨by decide,
   c3_cast_idempotence_amended trivExt (Value.U32 5) (by decide)
     (fun b h => by cases h)⟩

/-- C6 counterexample: the claim says every target other than `Bool` and
`Result` yields `None` on a `Null` source, naming `String` explicitly; but
the `Typ::String` arm of `Value::cast` maps `Null` to `Some(String("null"))`. -/
theorem c6_cast_null_counterexample :
    Value.cast trivExt Value.Null Typ.String = some (Value.String "null") ∧
    Value.cast trivExt Value.Null Typ.String ≠ none := by
  decide

/-- C6 amended: casting `Null` yields `False` at `Bool`, `Ok` at `Result`,
the string `null` at `String`, and `None` at every other target type. -/
theorem c6_cast_null_amended :
    ∀ (ext : ExtFns),
      Value.cast ext Value.Null Typ.Bool = some Value.False ∧
      Value.cast ext Value.Null Typ.Result = some Value.Ok ∧
      Value.cast ext Value.Null Typ.String = some (Value.String "null") ∧
      ∀ t, t ≠ Typ.Bool → t ≠ Typ.Result → t ≠ Typ.String →
        Value.cast ext Value.Null t = none := by
  intro ext
  refine ⟨rfl, rfl, rfl, ?_⟩
  intro t h1 h2 h3
  cases t <;> first | rfl | exact absurd rfl h1 | exact absurd rfl h2 | exact absurd rfl h3

/-- C6 witness: the amended statement applied at the concrete target `U32`
with the trivial external functions. -/
theorem c6_cast_null_witness :
    Value.cast trivExt Value.Null Typ.U32 = none ∧
    Value.cast trivExt Value.Null Typ.Bool = some Value.False :=
  ⟨(c6_cast_null_amended trivExt).2.2.2 Typ.U32 (by decide) (by decide) (by decide),
   (c6_cast_null_amended trivExt).1⟩

/-- C7 counterexample: the claim says a nonzero divisor of a compatible
signed pair yields the integer quotient, but the source guards every signed
division arm with `r > 0`, so `I32(6) / I32(-2)` falls through to the
catch-all and yields `Value::Error`, not `I32(-3)`. -/
theorem c7_signed_div_counterexample :
    valueDiv trivExt (Value.I32 6) (Value.I32 (-2)) =
      .ok (Value.Error (cantMsg "divide" "by" (Value.I32 6) (Value.I32 (-2)))) ∧
    valueDiv trivExt (Value.I32 6) (Value.I32 (-2)) ≠ .ok (Value.I32 (-3)) := by
  decide

/-- C7 amended: signed division on compatible kinds returns the truncating
integer quotient exactly when the divisor is positive; a zero or negative
divisor falls through to the catch-all arm and is embedded as
`Value::Error`. -/
theorem c7_signed_div_amended :
    (∀ (ext : ExtFns) (a b : Int), 0 < b →
      valueDiv ext (Value.I32 a) (Value.I32 b) = .ok (Value.I32 (Int.tdiv a b)) ∧
      valueDiv ext (Value.I32 a) (Value.Z32 b) = .ok (Value.I32 (Int.tdiv a b)) ∧
      valueDiv ext (Value.Z32 a) (Value.Z32 b) = .ok (Value.Z32 (Int.tdiv a b)) ∧
      valueDiv ext (Value.Z32 a) (Value.I32 b) = .ok (Value.I32 (Int.tdiv a b)) ∧
      valueDiv ext (Value.I64 a) (Value.I64 b) = .ok (Value.I64 (Int.tdiv a b)) ∧
      valueDiv ext (Value.I64 a) (Value.Z64 b) = .ok (Value.I64 (Int.tdiv a b)) ∧
      valueDiv ext (Value.Z64 a) (Value.Z64 b) = .ok (Value.Z64 (Int.tdiv a b)) ∧
      valueDiv ext (Value.Z64 a) (Value.I64 b) = .ok (Value.I64 (Int.tdiv a b))) ∧
    (∀ (ext : ExtFns) (a b : Int), b ≤ 0 →
      (∃ s, valueDiv ext (Value.I32 a) (Value.I32 b) = .ok (Value.Error s)) ∧
      (∃ s, valueDiv ext (Value.I64 a) (Value.I64 b) = .ok (Value.Error s))) := by
  constructor
  · intro ext a b hb
    refine ⟨?_, ?_, ?_, ?_, ?_, ?_, ?_, ?_⟩ <;> simp [valueDiv, hb]
  · intro ext a b hb
    have hb2 : ¬ (0 < b) := by omega
    exact ⟨⟨cantMsg "divide" "by" (Value.I32 a) (Value.I32 b), by simp [valueDiv, hb2]⟩,
      ⟨cantMsg "divide" "by" (Value.I64 a) (Value.I64 b), by simp [valueDiv, hb2]⟩⟩

/-- C7 witness: the amended statement applied at `I32(-7) / I32(2) = I32(-3)`
(truncating division) and at the nonpositive divisor `I32(5) / I32(0)`. -/
theorem c7_signed_div_witness :
    ((0:Int) < 2 ∧
      valueDiv trivExt (Value.I32 (-7)) (Value.I32 2) = .ok (Value.I32 (Int.tdiv (-7) 2))) ∧
    ((0:Int) ≤ 0 ∧
      ∃ s, valueDiv trivExt (Value.I32 5) (Value.I32 0) = .ok (Value.Error s)) :=
  ⟨⟨by decide, (c7_signed_div_amended.1 trivExt (-7) 2 (by decide)).1⟩,
   ⟨le_refl 0, (c7_signed_div_amended.2 trivExt 5 0 (by decide)).1⟩⟩

set_option maxHeartbeats 1000000

/-- Helper: every pair not matched by an addition arm reaches the catch-all
arm of `impl Add` and is embedded as `Value::Error` data. -/
theorem add_mismatch_embeds_error (ext : ExtFns) (l r : Value)
    (h : addCompat l r = false) : ∃ s, valueAdd ext l r = .ok (Value.Error s) := by
  cases l <;> cases r <;> simp [addCompat] at h <;> exact ⟨_, rfl⟩

/-- Helper: every pair not matched by a subtraction arm reaches the
catch-all arm of `impl Sub` and is embedded as `Value::Error` data. -/
theorem sub_mismatch_embeds_error (ext : ExtFns) (l r : Value)
    (h : subCompat l r = false) : ∃ s, valueSub ext l r = .ok (Value.Error s) := by
  cases l <;> cases r <;> simp [subCompat] at h <;> exact ⟨_, rfl⟩

/-- Helper: every pair not matched by a multiplication arm reaches the
catch-all arm of `impl Mul` and is embedded as `Value::Error` data. -/
theorem mul_mismatch_embeds_error (ext : ExtFns) (l r : Value)
    (h : mulCompat l r = false) : ∃ s, valueMul ext l r = .ok (Value.Error s) := by
  cases l <;> cases r <;> simp [mulCompat] at h <;> exact ⟨_, rfl⟩

/-- Helper: every pair not matched by a division arm reaches the catch-all
arm of `impl Div` and is embedded as `Value::Error` data. -/
theorem div_mismatch_embeds_error (ext : ExtFns) (l r : Value)
    (h : divCompat l r = false) : ∃ s, valueDiv ext l r = .ok (Value.Error s) := by
  cases l <;> cases r <;> simp [divCompat] at h <;> exact ⟨_, rfl⟩

/-- C1 counterexample: the operations do not always return a `Value`.
`Duration(0ns) - Duration(1ns)` panics (std Duration subtraction has no
guard in the source), and `U32` addition overflow wraps to `U32(0)` in a
release build (and panics in debug) — in neither case is the failure
embedded as `Value::Error`. -/
theorem c1_arith_counterexample :
    valueSub trivExt (Value.Duration 0) (Value.Duration 1) = .error .panic ∧
    valueAdd trivExt (Value.U32 (2 ^ 32 - 1)) (Value.U32 1) = .ok (Value.U32 0) := by
  decide

/-- C1 amended: type-mismatched pairs are never raised — every pair outside
the arms of the four operations is embedded as `Value::Error(message)` and
propagates as data; but unsigned overflow in addition wraps (release
builds; a debug build panics) rather than producing `Error`, and on
`Duration` operands subtraction panics exactly when the right operand
exceeds the left, and division by a zero `u32` scalar panics. -/
theorem c1_arith_amended :
    (∀ (ext : ExtFns) (l r : Value), addCompat l r = false →
      ∃ s, valueAdd ext l r = .ok (Value.Error s)) ∧
    (∀ (ext : ExtFns) (l r : Value), subCompat l r = false →
      ∃ s, valueSub ext l r = .ok (Value.Error s)) ∧
    (∀ (ext : ExtFns) (l r : Value), mulCompat l r = false →
      ∃ s, valueMul ext l r = .ok (Value.Error s)) ∧
    (∀ (ext : ExtFns) (l r : Value), divCompat l r = false →
      ∃ s, valueDiv ext l r = .ok (Value.Error s)) ∧
    (∀ (ext : ExtFns) (d0 d1 : Nat),
      valueSub ext (Value.Duration d0) (Value.Duration d1) =
        if d1 ≤ d0 then .ok (Value.Duration (d0 - d1)) else .error .panic) ∧
    (∀ (ext : ExtFns) (a b : Nat),
      valueAdd ext (Value.U32 a) (Value.U32 b) = .ok (Value.U32 (wrap32 (a + b)))) ∧
    (∀ (ext : ExtFns) (d : Nat),
      valueDiv ext (Value.Duration d) (Value.U32 0) = .error .panic) :=
  ⟨add_mismatch_embeds_error, sub_mismatch_embeds_error, mul_mismatch_embeds_error,
   div_mismatch_embeds_error,
   fun _ _ _ => rfl, fun _ _ _ => rfl, fun _ _ => rfl⟩

/-- C1 witness: the amended statement applied at the mismatched pair
`Bytes([]) + U32(0)` with the trivial external functions. -/
theorem c1_arith_witness :
    addCompat (Value.Bytes []) (Value.U32 0) = false ∧
    (∃ s, valueAdd trivExt (Value.Bytes []) (Value.U32 0) = .ok (Value.Error s)) :=
  ⟨by decide, c1_arith_amended.1 trivExt (Value.Bytes []) (Value.U32 0) (by decide)⟩

/-- C2 counterexample: an encrypted frame received before any context is
installed does not fail the connection with `encryption is required` — the
read task suspends on the `set_ctx` oneshot, installs the arriving context
and delivers the unwrapped payload.  Concretely, with an identity unwrap
and a context arriving on the oneshot, the frame is delivered. -/
theorem c2_encrypted_before_ctx_counterexample :
    readStep (fun (_ : Unit) (p : Nat) => Except.ok p)
      ⟨none, .pending (some ())⟩ ⟨true, 7⟩ = .ok (7, ⟨some (), .spent⟩) ∧
    readStep (fun (_ : Unit) (p : Nat) => Except.ok p)
      ⟨none, .pending (some ())⟩ ⟨true, 7⟩ ≠ .error .encryptionRequired := by
  decide

/-- C2 amended: an encrypted frame received before a context is installed
never produces `encryption is required`; instead the read task awaits
`set_ctx`: if a context arrives it is installed and the frame is unwrapped
and delivered (or the connection fails with the unwrap error); if the
`set_ctx` sender is dropped the connection fails with the oneshot
cancellation error.  The `encryption is required` failure belongs to the
opposite case (an unencrypted frame once a context exists, claim C8). -/
theorem c2_encrypted_before_ctx_amended :
    ∀ (Ctx Payload : Type) (unwrap : Ctx → Payload → Except Unit Payload)
      (slot : SetCtxSlot Ctx) (p : Payload),
      readStep unwrap ⟨none, slot⟩ ⟨true, p⟩ ≠ .error .encryptionRequired ∧
      (∀ c, slot = .pending (some c) →
        readStep unwrap ⟨none, slot⟩ ⟨true, p⟩ =
          match unwrap c p with
          | .ok q => .ok (q, ⟨some c, .spent⟩)
          | .error _ => .error .unwrapFailed) ∧
      (slot = .pending none → readStep unwrap ⟨none, slot⟩ ⟨true, p⟩ = .error .ctxCanceled) ∧
      (slot = .spent → readStep unwrap ⟨none, slot⟩ ⟨true, p⟩ = .error .ctxCanceled) := by
  intro Ctx Payload unwrap slot p
  refine ⟨?_, ?_, ?_, ?_⟩
  · match slot with
    | .pending (some c) =>
      cases hu : unwrap c p <;> simp [readStep, hu]
    | .pending none => simp [readStep]
    | .spent => simp [readStep]
  · intro c hc
    subst hc
    cases hu : unwrap c p <;> simp [readStep, hu]
  · intro hc; subst hc; rfl
  · intro hc; subst hc; rfl

/-- C2 witness: the amended statement applied at an identity unwrap, a
pending context and the concrete payload 5 — the frame is delivered, not
rejected. -/
theorem c2_encrypted_before_ctx_witness :
    readStep (fun (_ : Unit) (p : Nat) => Except.ok p)
      ⟨none, SetCtxSlot.pending (some ())⟩ ⟨true, 5⟩ = .ok (5, ⟨some (), .spent⟩) :=
  (c2_encrypted_before_ctx_amended Unit Nat (fun _ p => Except.ok p)
    (SetCtxSlot.pending (some ())) 5).2.1 () rfl

/-- C8 confirmed: once a security context is installed on the read channel,
(1) any unencrypted frame fails the connection with `encryption is
required`, (2) a successful step never uninstalls the context, and (3) no
payload delivered downstream from a context-installed state comes from an
unencrypted frame — every delivered payload is the successful unwrap of an
encrypted frame. -/
theorem c8_unencrypted_rejected :
    (∀ (Ctx Payload : Type) (unwrap : Ctx → Payload → Except Unit Payload)
      (s : RState Ctx) (f : Frame Payload), s.ctx.isSome = true → f.encrypted = false →
        readStep unwrap s f = .error .encryptionRequired) ∧
    (∀ (Ctx Payload : Type) (unwrap : Ctx → Payload → Except Unit Payload)
      (s : RState Ctx) (f : Frame Payload) (p : Payload) (s2 : RState Ctx),
        readStep unwrap s f = .ok (p, s2) → s.ctx.isSome = true → s2.ctx = s.ctx) ∧
    (∀ (Ctx Payload : Type) (unwrap : Ctx → Payload → Except Unit Payload)
      (c : Ctx) (slot : SetCtxSlot Ctx) (frames : List (Frame Payload)) (p : Payload),
        p ∈ (readRun unwrap ⟨some c, slot⟩ frames).1 →
          ∃ f, f ∈ frames ∧ f.encrypted = true ∧ unwrap c f.payload = .ok p) := by
  refine ⟨?_, ?_, ?_⟩
  · intro Ctx Payload unwrap s f hs hf
    obtain ⟨c, hc⟩ := Option.isSome_iff_exists.mp hs
    rcases f with ⟨enc, pl⟩
    simp at hf
    subst hf
    simp [readStep, hc]
  · intro Ctx Payload unwrap s f p s2 h hs
    obtain ⟨c, hc⟩ := Option.isSome_iff_exists.mp hs
    rcases f with ⟨enc, pl⟩
    cases enc
    · simp [readStep, hc] at h
    · simp only [readStep, hc] at h
      cases hu : unwrap c pl <;> rw [hu] at h <;> simp at h
      rw [← h.2]
  · intro Ctx Payload unwrap c slot frames
    induction frames with
    | nil => intro p hp; simp [readRun] at hp
    | cons f rest ih =>
      intro p hp
      rcases f with ⟨enc, pl⟩
      cases enc
      · simp [readRun, readStep] at hp
      · cases hu : unwrap c pl with
        | error e => simp [readRun, readStep, hu] at hp
        | ok q =>
          simp [readRun, readStep, hu] at hp
          rcases hp with h | h
          · exact ⟨⟨true, pl⟩, List.mem_cons_self _ _, rfl, by rw [h]; exact hu⟩
          · obtain ⟨f2, hf2, he2, hu2⟩ := ih p h
            exact ⟨f2, List.mem_cons_of_mem _ hf2, he2, hu2⟩

/-- C8 witness: part (1) applied at an installed unit context and a
concrete unencrypted frame. -/
theorem c8_unencrypted_rejected_witness :
    readStep (fun (_ : Unit) (p : Nat) => Except.ok p) ⟨some (), .spent⟩ ⟨false, 7⟩ =
      .error .encryptionRequired :=
  c8_unencrypted_rejected.1 Unit Nat (fun _ p => Except.ok p)
    ⟨some (), .spent⟩ ⟨false, 7⟩ rfl rfl

/-- C10 confirmed: `ReadChannel::set_ctx` may be called at most once.  A
fresh channel holds `Some(sender)`; the first call consumes it (leaving
`None`) and succeeds; a second call on the resulting state panics (the
`unwrap` of `None`), and `Channel::set_ctx` behaves identically since it
forwards to the read half. -/
theorem c10_set_ctx_once :
    ∀ (Ctx : Type) (sender : Ctx),
      ReadChannel.setCtx (some sender) = .ok none ∧
      (∀ st2 : Option Ctx, ReadChannel.setCtx (some sender) = .ok st2 →
        ReadChannel.setCtx st2 = .error .panic) ∧
      Channel.setCtx (some sender) = .ok (none : Option Ctx) ∧
      Channel.setCtx (none : Option Ctx) = .error .panic := by
  intro Ctx sender
  refine ⟨rfl, ?_, rfl, rfl⟩
  intro st2 h
  simp [ReadChannel.setCtx] at h
  subst h
  rfl

/-- C10 witness: the statement applied at the concrete sender `0`, with the
second call made on the state produced by the first. -/
theorem c10_set_ctx_once_witness :
    ReadChannel.setCtx (some (0 : Nat)) = .ok none ∧
    ReadChannel.setCtx (none : Option Nat) = .error .panic :=
  ⟨(c10_set_ctx_once Nat 0).1,
   (c10_set_ctx_once Nat 0).2.1 none (c10_set_ctx_once Nat 0).1⟩

/-- C4 code bug: on an encode failure `queue_send` restores the buffer
(`resize(buf_len)`) but pops the boundary list unconditionally
(`self.boundries.pop()`), even when this call pushed no boundary.  At the
prior state `buf = 10 zero bytes, boundries = [4]` and a message of
encoded length 1 whose encode fails, the call returns an error yet leaves
`boundries = []` instead of `[4]`: the pre-existing boundary is lost,
contradicting the documented rollback. -/
theorem c4_queue_send_rollback_bug :
    queueSend ⟨List.replicate 10 0, [4]⟩ ⟨1, none⟩ =
      (.error .encodeFailed, ⟨List.replicate 10 0, []⟩) ∧
    (queueSend ⟨List.replicate 10 0, [4]⟩ ⟨1, none⟩).2 ≠ ⟨List.replicate 10 0, [4]⟩ := by
  decide

/-- Helper: on a batch containing no `Clear`, the per-element event stream
coincides with the remainder handling (`Store::handle_batch_write`, modelled
from the spec): every message produces the same acks in both phases. -/
theorem clearLoop_no_clear :
    ∀ (batch : List ToWrite), ToWrite.Clear ∉ batch →
      clearLoop batch = specHandleBatchWrite batch := by
  intro batch
  induction batch with
  | nil => intro _; rfl
  | cons m rest ih =>
    intro h
    have hm : m ≠ ToWrite.Clear := fun e => h (by rw [e]; exact List.mem_cons_self _ _)
    have hr : ToWrite.Clear ∉ rest := fun hx => h (List.mem_cons_of_mem _ hx)
    cases m <;> first
      | exact absurd rfl hm
      | simp [clearLoop, specHandleBatchWrite, drainEvents, ih hr]

/-- Helper: the loop splits at the first `Clear` exactly as the source
does — the Clear-free prefix is drained (acks in order), the `Clear`
invokes `handle_clear` and acks `Unpublished`, a flush is forced, and the
remainder is processed as its own sub-batch. -/
theorem clearLoop_split :
    ∀ (pre post : List ToWrite), ToWrite.Clear ∉ pre →
      clearLoop (pre ++ ToWrite.Clear :: post) =
        pre.flatMap drainEvents ++
          [WEvent.handleClear, WEvent.ack .Unpublished, WEvent.flush] ++ clearLoop post := by
  intro pre
  induction pre with
  | nil => intro post _; simp [clearLoop]
  | cons m pre2 ih =>
    intro post h
    have hm : m ≠ ToWrite.Clear := fun e => h (by rw [e]; exact List.mem_cons_self _ _)
    have hp : ToWrite.Clear ∉ pre2 := fun hx => h (List.mem_cons_of_mem _ hx)
    cases m <;> first
      | exact absurd rfl hm
      | simp [clearLoop, drainEvents, ih post hp]

/-- C5 confirmed: the server splits an incoming write batch at the first
`Clear` — every message up to and including it is acknowledged in order
(publish variants ack `Published`, unpublish variants `Unpublished`,
`Heartbeat` nothing, and `Clear` invokes `handle_clear` and acks
`Unpublished`), a flush is forced, and the remainder is processed as its
own sub-batch; in particular `[Publish a, Publish b, Clear, Publish c]`
yields exactly the acks `[Published, Published, Unpublished, Published]`
in order. -/
theorem c5_clear_splits_batches :
    (∀ (pre post : List ToWrite), ToWrite.Clear ∉ pre →
      processWriteBatch (pre ++ ToWrite.Clear :: post) =
        pre.flatMap drainEvents ++
          [WEvent.handleClear, WEvent.ack .Unpublished, WEvent.flush] ++ clearLoop post) ∧
    (∀ (batch : List ToWrite), ToWrite.Clear ∉ batch →
      clearLoop batch = specHandleBatchWrite batch) ∧
    (∀ a b c,
      processWriteBatch [ToWrite.Publish a, ToWrite.Publish b, ToWrite.Clear,
        ToWrite.Publish c] =
        [WEvent.ack .Published, WEvent.ack .Published, WEvent.handleClear,
         WEvent.ack .Unpublished, WEvent.flush, WEvent.ack .Published] ∧
      acksOf (processWriteBatch [ToWrite.Publish a, ToWrite.Publish b, ToWrite.Clear,
        ToWrite.Publish c]) =
        [FromWrite.Published, FromWrite.Published, FromWrite.Unpublished,
         FromWrite.Published]) := by
  refine ⟨?_, clearLoop_no_clear, ?_⟩
  · intro pre post h
    have hne : pre ++ ToWrite.Clear :: post ≠ [ToWrite.Heartbeat] := by
      intro e
      have hmem : ToWrite.Clear ∈ pre ++ ToWrite.Clear :: post :=
        List.mem_append_right _ (List.mem_cons_self _ _)
      rw [e] at hmem
      simp at hmem
    unfold processWriteBatch
    rw [if_neg hne]
    exact clearLoop_split pre post h
  · intro a b c
    constructor
    · simp [processWriteBatch, clearLoop, drainEvents]
    · simp [processWriteBatch, clearLoop, drainEvents, acksOf]

/-- C5 witness: the split statement applied at the concrete batch
`[Publish "a"] ++ Clear :: [Publish "c"]`. -/
theorem c5_clear_splits_batches_witness :
    processWriteBatch ([ToWrite.Publish "a"] ++ ToWrite.Clear :: [ToWrite.Publish "c"]) =
      [WEvent.ack .Published, WEvent.handleClear, WEvent.ack .Unpublished, WEvent.flush,
       WEvent.ack .Published] :=
  c5_clear_splits_batches.1 [ToWrite.Publish "a"] [ToWrite.Publish "c"] (by decide)

/-- C9 confirmed: the four per-path subscribe failure modes carry exactly
the spec's error strings — zero resolved addresses fail with
`path not found`; a publisher `NoSuchValue` reply fails the pending request
with `no such value`; a subscribe whose connection task drops the reply
oneshot fails with `connection died`; a waiter whose initiating caller
drops the waiter oneshot fails with `other side died`. -/
theorem c9_subscribe_failures :
    (∀ (Addr Sub : Type), resolvedSt ([] : List Addr) = (St.Error "path not found" : St Sub)) ∧
    (∀ (Path Id Sub : Type) [inst : DecidableEq Path] (pending : List Path) (p : Path),
      p ∈ pending →
        (@handleControl Path Id Sub inst pending (FromPublisher.NoSuchValue p)).replies =
          [(p, Except.error "no such value")]) ∧
    (∀ (Sub : Type), @waitSubscribing Sub .canceled = .error "connection died") ∧
    (∀ (Sub : Type), @waitOther Sub .canceled = St.Error "other side died") := by
  refine ⟨fun _ _ => rfl, ?_, fun _ => rfl, fun _ => rfl⟩
  intro Path Id Sub inst pending p hp
  simp [handleControl, hp]

/-- C9 witness: the `NoSuchValue` reply applied at the concrete pending set
`[3]` and path `3`. -/
theorem c9_subscribe_failures_witness :
    (@handleControl Nat Nat Unit instDecidableEqNat [3] (FromPublisher.NoSuchValue 3)).replies =
      [(3, Except.error "no such value")] :=
  c9_subscribe_failures.2.1 Nat Nat Unit [3] 3 (by decide)
